import Mathlib

/-
  Shallow embedding of the gradient-descent notebook
  `Week_1_-_Linear_Regression/7.Gradient_Descent_Optimisiation.ipynb`.

  Conventions:
  * numpy 1-D float arrays are modelled as `List ℚ`;
  * Python exceptions (ZeroDivisionError on an empty dataset, IndexError
    when `y` is shorter than `x`) are modelled by `Option`: `none` is a
    raised exception that propagates to the caller;
  * the diagnostic `print` inside the loop is a side effect that does not
    influence any returned value and is not modelled;
  * `range(num_iters)` for a negative `num_iters` is empty, which is what
    `Int.toNat` gives.
-/

set_option maxHeartbeats 1000000

/-- The tuple returned by `gradient_descent`: final parameters `m`, `b`,
the cost history `J_history` and the parameter history `p_history`. -/
structure GDState where
  m : ℚ
  b : ℚ
  J_history : List ℚ
  p_history : List (ℚ × ℚ)
deriving DecidableEq

/-- The accumulation loop of `compute_cost`: `Σ (m*x[i] + b - y[i])^2` over
`i in range(len(x))`; `none` models the IndexError raised when `y` runs out
before `x` does. -/
def sqResidSum (m b : ℚ) : List ℚ → List ℚ → Option ℚ
  | [], _ => some 0
  | _ :: _, [] => none
  | a :: xs, c :: ys =>
    (sqResidSum m b xs ys).map (fun s => (m * a + b - c) ^ 2 + s)

/-- `compute_cost(x, y, m, b)` from the notebook: loop accumulating squared
residuals, then `total_cost = (1/(2*n)) * cost_sum` with `n = len(x)`;
`n = 0` raises ZeroDivisionError (`none`). -/
def compute_cost (x y : List ℚ) (m b : ℚ) : Option ℚ :=
  (sqResidSum m b x y).bind (fun s =>
    if x.length = 0 then none
    else some ((1 / (2 * (x.length : ℚ))) * s))

/-- The accumulation loop of `compute_gradient`: the pair
`(Σ (m*x[i]+b-y[i])*x[i], Σ (m*x[i]+b-y[i]))` over `i in range(len(x))`. -/
def residSums (m b : ℚ) : List ℚ → List ℚ → Option (ℚ × ℚ)
  | [], _ => some (0, 0)
  | _ :: _, [] => none
  | a :: xs, c :: ys =>
    (residSums m b xs ys).map
      (fun s => ((m * a + b - c) * a + s.1, (m * a + b - c) + s.2))

/-- `compute_gradient(x, y, m, b)` from the notebook: returns
`(dj_dm / n, dj_db / n)` with `n = len(x)`; `n = 0` raises
ZeroDivisionError (`none`). -/
def compute_gradient (x y : List ℚ) (m b : ℚ) : Option (ℚ × ℚ) :=
  (residSums m b x y).bind (fun s =>
    if x.length = 0 then none
    else some (s.1 / (x.length : ℚ), s.2 / (x.length : ℚ)))

/-- One pass of the `for i in range(num_iters)` body of `gradient_descent`:
compute the gradient at the current parameters, update `b` and `m` from that
same gradient, and, when `i < 100000`, append `cost_function` at the new
parameters and the new pair to the histories. -/
def gdIter (x y : List ℚ) (alpha : ℚ)
    (cost_function : List ℚ → List ℚ → ℚ → ℚ → Option ℚ)
    (gradient_function : List ℚ → List ℚ → ℚ → ℚ → Option (ℚ × ℚ))
    (i : ℕ) (st : GDState) : Option GDState :=
  (gradient_function x y st.m st.b).bind (fun g =>
    let b' := st.b - alpha * g.2
    let m' := st.m - alpha * g.1
    if i < 100000 then
      (cost_function x y m' b').map (fun c =>
        ⟨m', b', st.J_history ++ [c], st.p_history ++ [(m', b')]⟩)
    else some ⟨m', b', st.J_history, st.p_history⟩)

/-- The loop of `gradient_descent`, run from index `i` for `k` more
iterations. -/
def gdAux (x y : List ℚ) (alpha : ℚ)
    (cost_function : List ℚ → List ℚ → ℚ → ℚ → Option ℚ)
    (gradient_function : List ℚ → List ℚ → ℚ → ℚ → Option (ℚ × ℚ)) :
    ℕ → ℕ → GDState → Option GDState
  | _, 0, st => some st
  | i, k + 1, st =>
    (gdIter x y alpha cost_function gradient_function i st).bind
      (gdAux x y alpha cost_function gradient_function (i + 1) k)

/-- `gradient_descent(x, y, m_in, b_in, alpha, num_iters, cost_function,
gradient_function)` from the notebook: starts from `(m_in, b_in)` with empty
histories and runs the loop body for `i in range(num_iters)`. -/
def gradient_descent (x y : List ℚ) (m_in b_in alpha : ℚ) (num_iters : ℤ)
    (cost_function : List ℚ → List ℚ → ℚ → ℚ → Option ℚ)
    (gradient_function : List ℚ → List ℚ → ℚ → ℚ → Option (ℚ × ℚ)) :
    Option GDState :=
  gdAux x y alpha cost_function gradient_function 0 num_iters.toNat
    ⟨m_in, b_in, [], []⟩

/-- The parameter part of one loop iteration (histories projected away);
used to say what "the parameter state after iteration i" is. -/
def paramStep (x y : List ℚ) (alpha : ℚ)
    (gradient_function : List ℚ → List ℚ → ℚ → ℚ → Option (ℚ × ℚ))
    (p : ℚ × ℚ) : Option (ℚ × ℚ) :=
  (gradient_function x y p.1 p.2).map
    (fun g => (p.1 - alpha * g.1, p.2 - alpha * g.2))

/-- The parameter state after `k` iterations of the loop. -/
def paramsAfter (x y : List ℚ) (alpha : ℚ)
    (gradient_function : List ℚ → List ℚ → ℚ → ℚ → Option (ℚ × ℚ)) :
    ℕ → ℚ × ℚ → Option (ℚ × ℚ)
  | 0, p => some p
  | k + 1, p =>
    (paramStep x y alpha gradient_function p).bind
      (paramsAfter x y alpha gradient_function k)

/-- Invariant carried through the `gradient_descent` loop when it reaches
index `i`: the histories hold `min i 100000` entries, the current
parameters are the `i`-fold parameter update of the initial pair, the
`j`-th history entry is the parameter state after iteration `j`, and the
cost history is the cost function evaluated at the parameter history. -/
def GDInv (x y : List ℚ) (alpha : ℚ)
    (cost_function : List ℚ → List ℚ → ℚ → ℚ → Option ℚ)
    (gradient_function : List ℚ → List ℚ → ℚ → ℚ → Option (ℚ × ℚ))
    (m0 b0 : ℚ) (i : ℕ) (st : GDState) : Prop :=
  st.J_history.length = min i 100000 ∧
  st.p_history.length = min i 100000 ∧
  paramsAfter x y alpha gradient_function i (m0, b0) = some (st.m, st.b) ∧
  (∀ j, j < st.p_history.length →
    paramsAfter x y alpha gradient_function (j + 1) (m0, b0) =
      st.p_history[j]?) ∧
  (∀ (j : ℕ) (pj : ℚ × ℚ), st.p_history[j]? = some pj →
    st.J_history[j]? = cost_function x y pj.1 pj.2)

/-- The parameter update of one iteration on the notebook's dataset
`x = [1, 2]`, `y = [300, 500]` with `alpha = 1/100`, written in error
coordinates `(u, v) = (m - 200, b - 100)` around the least-squares
optimum: `compute_gradient` there is `((5m + 3b - 1300)/2, (3m + 2b - 800)/2)`,
which in error coordinates makes the update the linear map below. -/
def errStep (p : ℚ × ℚ) : ℚ × ℚ :=
  ((195 * p.1 - 3 * p.2) / 200, (-3 * p.1 + 198 * p.2) / 200)

/-- `k`-fold iterate of `errStep`. -/
def errIter : ℕ → ℚ × ℚ → ℚ × ℚ
  | 0, p => p
  | k + 1, p => errIter k (errStep p)

/-- Lyapunov function for `errStep`: twice the quadratic form of the cost
Hessian `[[5/2, 3/2], [3/2, 1]]` of the dataset `[1, 2]`, `[300, 500]`. -/
def Vq (p : ℚ × ℚ) : ℚ :=
  5 * p.1 ^ 2 + 6 * p.1 * p.2 + 2 * p.2 ^ 2

/-! ### Closed forms of the two accumulation loops -/

lemma sqResidSum_eq_sum (m b : ℚ) :
    ∀ x y : List ℚ, x.length ≤ y.length →
      sqResidSum m b x y =
        some ((List.zipWith (fun a c => (m * a + b - c) ^ 2) x y).sum)
  | [], _, _ => by simp [sqResidSum]
  | a :: xs, [], h => by simp at h
  | a :: xs, c :: ys, h => by
    have ih := sqResidSum_eq_sum m b xs ys (by simpa using h)
    simp [sqResidSum, ih]

lemma residSums_eq_sum (m b : ℚ) :
    ∀ x y : List ℚ, x.length ≤ y.length →
      residSums m b x y =
        some ((List.zipWith (fun a c => (m * a + b - c) * a) x y).sum,
              (List.zipWith (fun a c => m * a + b - c) x y).sum)
  | [], _, _ => by simp [residSums]
  | a :: xs, [], h => by simp at h
  | a :: xs, c :: ys, h => by
    have ih := residSums_eq_sum m b xs ys (by simpa using h)
    simp [residSums, ih]

/-- C1: on a non-empty dataset of equal lengths, `compute_cost` returns
`(1/(2n)) * Σ (m*x_i + b - y_i)^2`.  It is a pure function by construction
of the embedding (its only output is the returned value). -/
theorem compute_cost_formula (x y : List ℚ) (m b : ℚ)
    (hx : x ≠ []) (hlen : x.length = y.length) :
    compute_cost x y m b =
      some ((1 / (2 * (x.length : ℚ))) *
        (List.zipWith (fun a c => (m * a + b - c) ^ 2) x y).sum) := by
  have h := sqResidSum_eq_sum m b x y (le_of_eq hlen)
  have hx' : x.length ≠ 0 := by simpa [List.length_eq_zero] using hx
  simp [compute_cost, h, hx']

/-- Witness for C1 at the notebook's dataset with `m = 1`, `b = 0`. -/
theorem compute_cost_formula_witness :
    compute_cost [1, 2] [300, 500] 1 0 =
      some ((1 / (2 * (([1, 2] : List ℚ).length : ℚ))) *
        (List.zipWith (fun a c => (1 * a + 0 - c) ^ 2)
          ([1, 2] : List ℚ) [300, 500]).sum) :=
  compute_cost_formula [1, 2] [300, 500] 1 0 (by simp) (by simp)

/-- C2: on a non-empty dataset of equal lengths, `compute_gradient` returns
`((1/n) * Σ (m*x_i + b - y_i) * x_i, (1/n) * Σ (m*x_i + b - y_i))`.  It is
a pure function by construction of the embedding. -/
theorem compute_gradient_formula (x y : List ℚ) (m b : ℚ)
    (hx : x ≠ []) (hlen : x.length = y.length) :
    compute_gradient x y m b =
      some ((1 / (x.length : ℚ)) *
              (List.zipWith (fun a c => (m * a + b - c) * a) x y).sum,
            (1 / (x.length : ℚ)) *
              (List.zipWith (fun a c => m * a + b - c) x y).sum) := by
  have h := residSums_eq_sum m b x y (le_of_eq hlen)
  have hx' : x.length ≠ 0 := by simpa [List.length_eq_zero] using hx
  simp [compute_gradient, h, hx', div_eq_mul_inv, one_div, mul_comm]

/-- Witness for C2 at the notebook's dataset with `m = 1`, `b = 0`. -/
theorem compute_gradient_formula_witness :
    compute_gradient [1, 2] [300, 500] 1 0 =
      some ((1 / (([1, 2] : List ℚ).length : ℚ)) *
              (List.zipWith (fun a c => (1 * a + 0 - c) * a)
                ([1, 2] : List ℚ) [300, 500]).sum,
            (1 / (([1, 2] : List ℚ).length : ℚ)) *
              (List.zipWith (fun a c => 1 * a + 0 - c)
                ([1, 2] : List ℚ) [300, 500]).sum) :=
  compute_gradient_formula [1, 2] [300, 500] 1 0 (by simp) (by simp)

/-- C5: with `iterations = 0` the loop body never runs, so
`gradient_descent` returns the initial parameters and empty histories,
whatever the dataset and the plugged-in cost/gradient functions. -/
theorem gradient_descent_zero_iterations (x y : List ℚ) (m_in b_in alpha : ℚ)
    (cost_function : List ℚ → List ℚ → ℚ → ℚ → Option ℚ)
    (gradient_function : List ℚ → List ℚ → ℚ → ℚ → Option (ℚ × ℚ)) :
    gradient_descent x y m_in b_in alpha 0 cost_function gradient_function =
      some ⟨m_in, b_in, [], []⟩ := rfl

/-! ### Unrolling the loop from the right -/

lemma gdAux_succ (x y : List ℚ) (alpha : ℚ)
    (cost_function : List ℚ → List ℚ → ℚ → ℚ → Option ℚ)
    (gradient_function : List ℚ → List ℚ → ℚ → ℚ → Option (ℚ × ℚ)) :
    ∀ (k i : ℕ) (st : GDState),
      gdAux x y alpha cost_function gradient_function i (k + 1) st =
        (gdAux x y alpha cost_function gradient_function i k st).bind
          (gdIter x y alpha cost_function gradient_function (i + k)) := by
  intro k
  induction k with
  | zero =>
    intro i st
    simp [gdAux]
  | succ k ih =>
    intro i st
    have e : i + 1 + k = i + (k + 1) := by omega
    show (gdIter x y alpha cost_function gradient_function i st).bind
        (gdAux x y alpha cost_function gradient_function (i + 1) (k + 1)) =
      ((gdIter x y alpha cost_function gradient_function i st).bind
        (gdAux x y alpha cost_function gradient_function (i + 1) k)).bind
        (gdIter x y alpha cost_function gradient_function (i + (k + 1)))
    rw [Option.bind_assoc]
    cases gdIter x y alpha cost_function gradient_function i st with
    | none => rfl
    | some st1 =>
      simp only [Option.some_bind]
      rw [ih (i + 1) st1, e]

lemma paramsAfter_succ (x y : List ℚ) (alpha : ℚ)
    (gradient_function : List ℚ → List ℚ → ℚ → ℚ → Option (ℚ × ℚ)) :
    ∀ (k : ℕ) (p : ℚ × ℚ),
      paramsAfter x y alpha gradient_function (k + 1) p =
        (paramsAfter x y alpha gradient_function k p).bind
          (paramStep x y alpha gradient_function) := by
  intro k
  induction k with
  | zero =>
    intro p
    simp [paramsAfter]
  | succ k ih =>
    intro p
    show (paramStep x y alpha gradient_function p).bind
        (paramsAfter x y alpha gradient_function (k + 1)) =
      ((paramStep x y alpha gradient_function p).bind
        (paramsAfter x y alpha gradient_function k)).bind
        (paramStep x y alpha gradient_function)
    rw [Option.bind_assoc]
    cases paramStep x y alpha gradient_function p with
    | none => rfl
    | some q =>
      simp only [Option.some_bind]
      rw [ih q]

/-! ### The loop invariant -/

lemma gdIter_inv (x y : List ℚ) (alpha : ℚ)
    (cost_function : List ℚ → List ℚ → ℚ → ℚ → Option ℚ)
    (gradient_function : List ℚ → List ℚ → ℚ → ℚ → Option (ℚ × ℚ))
    (m0 b0 : ℚ) (i : ℕ) (st st1 : GDState)
    (hstep : gdIter x y alpha cost_function gradient_function i st = some st1)
    (hinv : GDInv x y alpha cost_function gradient_function m0 b0 i st) :
    GDInv x y alpha cost_function gradient_function m0 b0 (i + 1) st1 := by
  obtain ⟨hJ, hp, hparams, hidx, hcost⟩ := hinv
  simp only [gdIter] at hstep
  cases hg : gradient_function x y st.m st.b with
  | none => rw [hg] at hstep; simp at hstep
  | some g =>
    rw [hg] at hstep
    simp only [Option.some_bind] at hstep
    have hnext : paramsAfter x y alpha gradient_function (i + 1) (m0, b0) =
        some (st.m - alpha * g.1, st.b - alpha * g.2) := by
      rw [paramsAfter_succ, hparams]
      simp [paramStep, hg]
    by_cases hi : i < 100000
    · rw [if_pos hi] at hstep
      cases hc : cost_function x y (st.m - alpha * g.1) (st.b - alpha * g.2) with
      | none => rw [hc] at hstep; simp at hstep
      | some c =>
        rw [hc] at hstep
        simp only [Option.map_some', Option.some.injEq] at hstep
        subst hstep
        have hplen : st.p_history.length = i := by omega
        have hJlen : st.J_history.length = i := by omega
        refine ⟨by simp; omega, by simp; omega, hnext, ?_, ?_⟩
        · intro j hj
          simp only [List.length_append, List.length_singleton] at hj
          rcases Nat.lt_or_ge j st.p_history.length with h | h
          · rw [List.getElem?_append_left h]
            exact hidx j h
          · have hj' : j = st.p_history.length := by omega
            subst hj'
            rw [List.getElem?_concat_length]
            rw [hplen]
            exact hnext
        · intro j pj hpj
          rcases Nat.lt_or_ge j st.p_history.length with h | h
          · rw [List.getElem?_append_left h] at hpj
            rw [List.getElem?_append_left (by omega : j < st.J_history.length)]
            exact hcost j pj hpj
          · rcases Nat.lt_or_ge j (st.p_history.length + 1) with h2 | h2
            · have hj' : j = st.p_history.length := by omega
              subst hj'
              rw [List.getElem?_concat_length] at hpj
              have hpj' : pj = (st.m - alpha * g.1, st.b - alpha * g.2) := by
                simpa using hpj.symm
              subst hpj'
              have hlen2 : st.p_history.length = st.J_history.length := by omega
              rw [hlen2, List.getElem?_concat_length]
              simp [hc]
            · rw [List.getElem?_eq_none (by simp; omega)] at hpj
              simp at hpj
    · rw [if_neg hi] at hstep
      simp only [Option.some.injEq] at hstep
      subst hstep
      refine ⟨by simp; omega, by simp; omega, hnext, ?_, ?_⟩
      · intro j hj
        exact hidx j hj
      · intro j pj hpj
        exact hcost j pj hpj

lemma gdAux_inv (x y : List ℚ) (alpha : ℚ)
    (cost_function : List ℚ → List ℚ → ℚ → ℚ → Option ℚ)
    (gradient_function : List ℚ → List ℚ → ℚ → ℚ → Option (ℚ × ℚ))
    (m0 b0 : ℚ) :
    ∀ (k i : ℕ) (st st' : GDState),
      gdAux x y alpha cost_function gradient_function i k st = some st' →
      GDInv x y alpha cost_function gradient_function m0 b0 i st →
      GDInv x y alpha cost_function gradient_function m0 b0 (i + k) st' := by
  intro k
  induction k with
  | zero =>
    intro i st st' h hinv
    simp only [gdAux, Option.some.injEq] at h
    subst h
    simpa using hinv
  | succ k ih =>
    intro i st st' h hinv
    simp only [gdAux] at h
    cases h1 : gdIter x y alpha cost_function gradient_function i st with
    | none => rw [h1] at h; simp at h
    | some st1 =>
      rw [h1] at h
      simp only [Option.some_bind] at h
      have hinv1 := gdIter_inv x y alpha cost_function gradient_function
        m0 b0 i st st1 h1 hinv
      have hfin := ih (i + 1) st1 st' h hinv1
      have e : i + 1 + k = i + (k + 1) := by omega
      rwa [e] at hfin

lemma gradient_descent_inv (x y : List ℚ) (m0 b0 alpha : ℚ) (N : ℤ)
    (cost_function : List ℚ → List ℚ → ℚ → ℚ → Option ℚ)
    (gradient_function : List ℚ → List ℚ → ℚ → ℚ → Option (ℚ × ℚ))
    (st : GDState)
    (h : gradient_descent x y m0 b0 alpha N cost_function gradient_function =
      some st) :
    GDInv x y alpha cost_function gradient_function m0 b0 N.toNat st := by
  have h0 : GDInv x y alpha cost_function gradient_function m0 b0 0
      ⟨m0, b0, [], []⟩ := by
    refine ⟨by simp, by simp, rfl, ?_, ?_⟩
    · intro j hj
      simp at hj
    · intro j pj hpj
      simp at hpj
  have := gdAux_inv x y alpha cost_function gradient_function m0 b0
    N.toNat 0 ⟨m0, b0, [], []⟩ st h h0
  simpa using this

/-! ### Convergence on the notebook's dataset -/

lemma compute_gradient_two (m b : ℚ) :
    compute_gradient [1, 2] [300, 500] m b =
      some ((5 * m + 3 * b - 1300) / 2, (3 * m + 2 * b - 800) / 2) := by
  norm_num [compute_gradient, residSums, Prod.ext_iff]
  constructor <;> ring

lemma compute_cost_two_isSome (m b : ℚ) :
    (compute_cost [1, 2] [300, 500] m b).isSome := by
  norm_num [compute_cost, sqResidSum]

lemma gdIter_params (x y : List ℚ) (alpha : ℚ)
    (cost_function : List ℚ → List ℚ → ℚ → ℚ → Option ℚ)
    (gradient_function : List ℚ → List ℚ → ℚ → ℚ → Option (ℚ × ℚ))
    (i : ℕ) (st st1 : GDState) (g : ℚ × ℚ)
    (hg : gradient_function x y st.m st.b = some g)
    (hstep : gdIter x y alpha cost_function gradient_function i st =
      some st1) :
    st1.m = st.m - alpha * g.1 ∧ st1.b = st.b - alpha * g.2 := by
  simp only [gdIter, hg, Option.some_bind] at hstep
  by_cases hi : i < 100000
  · rw [if_pos hi] at hstep
    cases hc : cost_function x y (st.m - alpha * g.1) (st.b - alpha * g.2) with
    | none => rw [hc] at hstep; simp at hstep
    | some c =>
      rw [hc] at hstep
      simp only [Option.map_some', Option.some.injEq] at hstep
      subst hstep
      exact ⟨rfl, rfl⟩
  · rw [if_neg hi] at hstep
    simp only [Option.some.injEq] at hstep
    subst hstep
    exact ⟨rfl, rfl⟩

lemma gdIter_isSome (x y : List ℚ) (alpha : ℚ)
    (cost_function : List ℚ → List ℚ → ℚ → ℚ → Option ℚ)
    (gradient_function : List ℚ → List ℚ → ℚ → ℚ → Option (ℚ × ℚ))
    (i : ℕ) (st : GDState) (g : ℚ × ℚ)
    (hg : gradient_function x y st.m st.b = some g)
    (hc : ∀ m b, (cost_function x y m b).isSome) :
    (gdIter x y alpha cost_function gradient_function i st).isSome := by
  simp only [gdIter, hg, Option.some_bind]
  by_cases hi : i < 100000
  · rw [if_pos hi]
    have hcs := hc (st.m - alpha * g.1) (st.b - alpha * g.2)
    cases hcv : cost_function x y (st.m - alpha * g.1) (st.b - alpha * g.2) with
    | none => rw [hcv] at hcs; simp at hcs
    | some c => simp
  · rw [if_neg hi]
    simp

lemma gdAux_conv :
    ∀ (k i : ℕ) (st : GDState), ∃ st' : GDState,
      gdAux [1, 2] [300, 500] (1 / 100) compute_cost compute_gradient
        i k st = some st' ∧
      st'.m - 200 = (errIter k (st.m - 200, st.b - 100)).1 ∧
      st'.b - 100 = (errIter k (st.m - 200, st.b - 100)).2 := by
  intro k
  induction k with
  | zero =>
    intro i st
    exact ⟨st, rfl, by simp [errIter], by simp [errIter]⟩
  | succ k ih =>
    intro i st
    have hg := compute_gradient_two st.m st.b
    have hsome := gdIter_isSome [1, 2] [300, 500] (1 / 100)
      compute_cost compute_gradient i st _ hg
      (fun m b => compute_cost_two_isSome m b)
    obtain ⟨st1, hstep⟩ := Option.isSome_iff_exists.mp hsome
    obtain ⟨h1m, h1b⟩ := gdIter_params [1, 2] [300, 500] (1 / 100)
      compute_cost compute_gradient i st st1 _ hg hstep
    have hkey : (st1.m - 200, st1.b - 100) = errStep (st.m - 200, st.b - 100) := by
      rw [h1m, h1b]
      simp only [errStep, Prod.mk.injEq]
      constructor <;> ring
    obtain ⟨st', hrun, hm', hb'⟩ := ih (i + 1) st1
    refine ⟨st', ?_, ?_, ?_⟩
    · show (gdIter [1, 2] [300, 500] (1 / 100) compute_cost
          compute_gradient i st).bind
          (gdAux [1, 2] [300, 500] (1 / 100) compute_cost
            compute_gradient (i + 1) k) = some st'
      rw [hstep, Option.some_bind]
      exact hrun
    · show st'.m - 200 =
        (errIter k (errStep (st.m - 200, st.b - 100))).1
      rw [← hkey]
      exact hm'
    · show st'.b - 100 =
        (errIter k (errStep (st.m - 200, st.b - 100))).2
      rw [← hkey]
      exact hb'

lemma Vq_errStep (p : ℚ × ℚ) : Vq (errStep p) ≤ (999 / 1000) * Vq p := by
  simp only [Vq, errStep]
  nlinarith [sq_nonneg (13167 * p.1 + 8136 * p.2), sq_nonneg p.2]

lemma Vq_errIter :
    ∀ (k : ℕ) (p : ℚ × ℚ), Vq (errIter k p) ≤ (999 / 1000) ^ k * Vq p := by
  intro k
  induction k with
  | zero =>
    intro p
    simp [errIter]
  | succ k ih =>
    intro p
    have h3 : (0 : ℚ) ≤ (999 / 1000) ^ k := by positivity
    calc Vq (errIter (k + 1) p) = Vq (errIter k (errStep p)) := rfl
    _ ≤ (999 / 1000) ^ k * Vq (errStep p) := ih (errStep p)
    _ ≤ (999 / 1000) ^ k * ((999 / 1000) * Vq p) :=
      mul_le_mul_of_nonneg_left (Vq_errStep p) h3
    _ = (999 / 1000) ^ (k + 1) * Vq p := by ring

lemma sq_le_Vq (p : ℚ × ℚ) :
    p.1 ^ 2 ≤ 10 * Vq p ∧ p.2 ^ 2 ≤ 10 * Vq p := by
  constructor
  · simp only [Vq]
    nlinarith [sq_nonneg (49 * p.1 + 30 * p.2), sq_nonneg p.2]
  · simp only [Vq]
    nlinarith [sq_nonneg (50 * p.1 + 30 * p.2), sq_nonneg p.2]

lemma Vq_le_sq (p : ℚ × ℚ) : Vq p ≤ 7 * (p.1 ^ 2 + p.2 ^ 2) := by
  simp only [Vq]
  nlinarith [sq_nonneg (2 * p.1 - 3 * p.2), sq_nonneg p.2]

/-- C3: running one more iteration of `gradient_descent` computes the
gradient once at the pre-update state `st`, updates both parameters from
that same state (`m - alpha*d_slope`, `b - alpha*d_intercept`, a
simultaneous update), and appends the cost of the new state and the new
pair to the histories exactly when `i < 100000`. -/
theorem gradient_descent_iteration_step (x y : List ℚ) (m_in b_in alpha : ℚ)
    (cost_function : List ℚ → List ℚ → ℚ → ℚ → Option ℚ)
    (gradient_function : List ℚ → List ℚ → ℚ → ℚ → Option (ℚ × ℚ))
    (i : ℕ) (st : GDState) (dm db : ℚ)
    (hrun : gradient_descent x y m_in b_in alpha (i : ℤ)
      cost_function gradient_function = some st)
    (hgrad : gradient_function x y st.m st.b = some (dm, db)) :
    gradient_descent x y m_in b_in alpha ((i : ℤ) + 1)
        cost_function gradient_function =
      if i < 100000 then
        (cost_function x y (st.m - alpha * dm) (st.b - alpha * db)).map
          (fun c => ⟨st.m - alpha * dm, st.b - alpha * db,
            st.J_history ++ [c],
            st.p_history ++ [(st.m - alpha * dm, st.b - alpha * db)]⟩)
      else some ⟨st.m - alpha * dm, st.b - alpha * db,
        st.J_history, st.p_history⟩ := by
  have ht : ((i : ℤ) + 1).toNat = i + 1 := by omega
  have ht0 : (i : ℤ).toNat = i := by omega
  unfold gradient_descent at hrun ⊢
  rw [ht, gdAux_succ]
  rw [ht0] at hrun
  rw [hrun]
  simp only [Option.some_bind, Nat.zero_add]
  simp [gdIter, hgrad]

/-- Witness for C3: one step from the zero state on the dataset `[1] [0]`
with `alpha = 0`. -/
theorem gradient_descent_iteration_step_witness :
    gradient_descent [1] [0] 0 0 0 (((0 : ℕ) : ℤ) + 1)
        compute_cost compute_gradient =
      if (0 : ℕ) < 100000 then
        (compute_cost [1] [0] ((0 : ℚ) - 0 * 0) ((0 : ℚ) - 0 * 0)).map
          (fun c => ⟨(0 : ℚ) - 0 * 0, (0 : ℚ) - 0 * 0, [] ++ [c],
            [] ++ [((0 : ℚ) - 0 * 0, (0 : ℚ) - 0 * 0)]⟩)
      else some ⟨(0 : ℚ) - 0 * 0, (0 : ℚ) - 0 * 0, [], []⟩ :=
  gradient_descent_iteration_step [1] [0] 0 0 0
    compute_cost compute_gradient 0 ⟨0, 0, [], []⟩ 0 0 rfl
    (by norm_num [compute_gradient, residSums])

/-- C4: when `gradient_descent` returns, both histories have length
`min N 100000`, the `j`-th history entry is the parameter state after
iteration `j`, and the final parameters are the full `N`-fold update of the
initial pair (so iterations past the cap still update the parameters while
appending nothing). -/
theorem gradient_descent_history_length (x y : List ℚ) (m0 b0 alpha : ℚ)
    (N : ℤ) (_hN : 0 ≤ N) (st : GDState)
    (h : gradient_descent x y m0 b0 alpha N compute_cost compute_gradient =
      some st) :
    st.J_history.length = min N.toNat 100000 ∧
    st.p_history.length = min N.toNat 100000 ∧
    (∀ j, j < st.p_history.length →
      paramsAfter x y alpha compute_gradient (j + 1) (m0, b0) =
        st.p_history[j]?) ∧
    paramsAfter x y alpha compute_gradient N.toNat (m0, b0) =
      some (st.m, st.b) := by
  obtain ⟨h1, h2, h3, h4, h5⟩ :=
    gradient_descent_inv x y m0 b0 alpha N compute_cost compute_gradient st h
  exact ⟨h1, h2, h4, h3⟩

/-- Witness for C4: a one-iteration run on the dataset `[1] [0]` with
`alpha = 0`. -/
theorem gradient_descent_history_length_witness :
    ([(0 : ℚ)] : List ℚ).length = min (1 : ℤ).toNat 100000 ∧
    ([((0 : ℚ), (0 : ℚ))]).length = min (1 : ℤ).toNat 100000 ∧
    (∀ j, j < ([((0 : ℚ), (0 : ℚ))]).length →
      paramsAfter [1] [0] 0 compute_gradient (j + 1) (0, 0) =
        ([((0 : ℚ), (0 : ℚ))])[j]?) ∧
    paramsAfter [1] [0] 0 compute_gradient (1 : ℤ).toNat (0, 0) =
      some (0, 0) :=
  gradient_descent_history_length [1] [0] 0 0 0 1 (by norm_num)
    ⟨0, 0, [0], [(0, 0)]⟩
    (by norm_num [gradient_descent, gdAux, gdIter, compute_cost,
      compute_gradient, sqResidSum, residSums])

/-- C9: for `1 ≤ N ≤ 100000`, the parameter pair returned by
`gradient_descent` is exactly the last entry of the parameter history. -/
theorem gradient_descent_final_matches_history (x y : List ℚ)
    (m0 b0 alpha : ℚ) (N : ℤ) (st : GDState)
    (h : gradient_descent x y m0 b0 alpha N compute_cost compute_gradient =
      some st)
    (hN1 : 1 ≤ N) (hN2 : N ≤ 100000) :
    st.p_history.getLast? = some (st.m, st.b) := by
  obtain ⟨hJ, hp, hparams, hidx, hcost⟩ :=
    gradient_descent_inv x y m0 b0 alpha N compute_cost compute_gradient st h
  have hlen : st.p_history.length = N.toNat := by omega
  have hj : st.p_history.length - 1 < st.p_history.length := by omega
  have hlast := hidx (st.p_history.length - 1) hj
  have he : st.p_history.length - 1 + 1 = N.toNat := by omega
  rw [List.getLast?_eq_getElem?, ← hlast, he, hparams]

/-- Witness for C9: the same one-iteration run as for C4. -/
theorem gradient_descent_final_matches_history_witness :
    ([((0 : ℚ), (0 : ℚ))]).getLast? = some ((0 : ℚ), (0 : ℚ)) :=
  gradient_descent_final_matches_history [1] [0] 0 0 0 1
    ⟨0, 0, [0], [(0, 0)]⟩
    (by norm_num [gradient_descent, gdAux, gdIter, compute_cost,
      compute_gradient, sqResidSum, residSums])
    (by norm_num) (by norm_num)

/-- C10: whenever `gradient_descent` returns, the two histories have equal
length and each cost entry is `compute_cost` evaluated at the parameter
pair stored at the same index. -/
theorem gradient_descent_histories_consistent (x y : List ℚ)
    (m0 b0 alpha : ℚ) (N : ℤ) (st : GDState)
    (h : gradient_descent x y m0 b0 alpha N compute_cost compute_gradient =
      some st) :
    st.J_history.length = st.p_history.length ∧
    ∀ (j : ℕ) (pj : ℚ × ℚ), st.p_history[j]? = some pj →
      st.J_history[j]? = compute_cost x y pj.1 pj.2 := by
  obtain ⟨hJ, hp, _, _, hcost⟩ :=
    gradient_descent_inv x y m0 b0 alpha N compute_cost compute_gradient st h
  exact ⟨by omega, hcost⟩

/-- Witness for C10: the same one-iteration run as for C4. -/
theorem gradient_descent_histories_consistent_witness :
    ([(0 : ℚ)] : List ℚ).length = ([((0 : ℚ), (0 : ℚ))]).length ∧
    ∀ (j : ℕ) (pj : ℚ × ℚ), ([((0 : ℚ), (0 : ℚ))])[j]? = some pj →
      ([(0 : ℚ)] : List ℚ)[j]? = compute_cost [1] [0] pj.1 pj.2 :=
  gradient_descent_histories_consistent [1] [0] 0 0 0 1
    ⟨0, 0, [0], [(0, 0)]⟩
    (by norm_num [gradient_descent, gdAux, gdIter, compute_cost,
      compute_gradient, sqResidSum, residSums])

/-- C8: on the dataset `x = [1, 2]`, `y = [300, 500]`, for the learning
rate `alpha = 1/100` and a sufficiently large iteration count,
`gradient_descent` started from any initial parameters returns final
parameters within any requested distance `eps` of the least-squares
optimum `(200, 100)`. -/
theorem gradient_descent_converges (m0 b0 eps : ℚ) (heps : 0 < eps) :
    ∃ alpha : ℚ, 0 < alpha ∧ ∃ N : ℤ, ∃ st : GDState,
      gradient_descent [1, 2] [300, 500] m0 b0 alpha N
        compute_cost compute_gradient = some st ∧
      |st.m - 200| < eps ∧ |st.b - 100| < eps := by
  have hS0 : (0 : ℚ) ≤ (m0 - 200) ^ 2 + (b0 - 100) ^ 2 := by positivity
  have hd : (0 : ℚ) <
      eps ^ 2 / (70 * ((m0 - 200) ^ 2 + (b0 - 100) ^ 2) + 1) := by positivity
  obtain ⟨n, hn⟩ := exists_pow_lt_of_lt_one hd
    (by norm_num : (999 / 1000 : ℚ) < 1)
  obtain ⟨st, hrun, hm, hb⟩ := gdAux_conv n 0 ⟨m0, b0, [], []⟩
  have h1 := Vq_errIter n (m0 - 200, b0 - 100)
  have h2 : Vq (m0 - 200, b0 - 100) ≤
      7 * ((m0 - 200) ^ 2 + (b0 - 100) ^ 2) := by
    simpa using Vq_le_sq (m0 - 200, b0 - 100)
  have h3 : (0 : ℚ) ≤ (999 / 1000) ^ n := by positivity
  have h4 := (sq_le_Vq (errIter n (m0 - 200, b0 - 100))).1
  have h5 := (sq_le_Vq (errIter n (m0 - 200, b0 - 100))).2
  have hprod : (999 / 1000 : ℚ) ^ n *
      (70 * ((m0 - 200) ^ 2 + (b0 - 100) ^ 2) + 1) < eps ^ 2 := by
    have hpos : (0 : ℚ) <
        70 * ((m0 - 200) ^ 2 + (b0 - 100) ^ 2) + 1 := by positivity
    have hmul := mul_lt_mul_of_pos_right hn hpos
    rwa [div_mul_cancel₀ _ (ne_of_gt hpos)] at hmul
  have hscale := mul_le_mul_of_nonneg_left h2 h3
  have hm2 : (errIter n (m0 - 200, b0 - 100)).1 ^ 2 < eps ^ 2 := by
    nlinarith [h1, h4, hscale, hprod, h3]
  have hb2 : (errIter n (m0 - 200, b0 - 100)).2 ^ 2 < eps ^ 2 := by
    nlinarith [h1, h5, hscale, hprod, h3]
  refine ⟨1 / 100, by norm_num, (n : ℤ), st, ?_, ?_, ?_⟩
  · show gdAux [1, 2] [300, 500] (1 / 100) compute_cost compute_gradient
        0 ((n : ℤ)).toNat ⟨m0, b0, [], []⟩ = some st
    rw [Int.toNat_natCast]
    exact hrun
  · rw [show st.m - 200 = (errIter n (m0 - 200, b0 - 100)).1 from hm]
    refine lt_of_pow_lt_pow_left₀ 2 heps.le ?_
    rwa [sq_abs]
  · rw [show st.b - 100 = (errIter n (m0 - 200, b0 - 100)).2 from hb]
    refine lt_of_pow_lt_pow_left₀ 2 heps.le ?_
    rwa [sq_abs]

/-- Witness for C8 at `m0 = b0 = 0`, `eps = 1`. -/
theorem gradient_descent_converges_witness :
    ∃ alpha : ℚ, 0 < alpha ∧ ∃ N : ℤ, ∃ st : GDState,
      gradient_descent [1, 2] [300, 500] 0 0 alpha N
        compute_cost compute_gradient = some st ∧
      |st.m - 200| < 1 ∧ |st.b - 100| < 1 :=
  gradient_descent_converges 0 0 1 (by norm_num)

/-- C6 counterexample: `gradient_descent` called with the negative
iteration count `-1` is not rejected; `range(-1)` is empty, so the call
computes and returns a result (the unchanged initial parameters with empty
histories) instead of signalling a caller error. -/
theorem gradient_descent_negative_iterations_counterexample :
    gradient_descent [1, 2] [300, 500] 0 0 (1 / 100) (-1)
      compute_cost compute_gradient = some ⟨0, 0, [], []⟩ := rfl

/-- C6 amended: an empty dataset makes `compute_cost` and
`compute_gradient` fail with a division-by-zero error (modelled as `none`),
and `gradient_descent` propagates that failure as soon as it runs one
iteration; but a negative iteration count is not rejected — the loop simply
runs zero times and the initial parameters are returned with empty
histories (and a non-finite learning rate is likewise never checked). -/
theorem precondition_behaviour (m b alpha : ℚ) (N : ℤ) (x y : List ℚ) :
    compute_cost [] y m b = none ∧
    compute_gradient [] y m b = none ∧
    (N ≤ 0 → gradient_descent x y m b alpha N compute_cost compute_gradient =
      some ⟨m, b, [], []⟩) ∧
    (1 ≤ N → gradient_descent [] y m b alpha N compute_cost
      compute_gradient = none) := by
  refine ⟨?_, ?_, ?_, ?_⟩
  · cases y <;> simp [compute_cost, sqResidSum]
  · cases y <;> simp [compute_gradient, residSums]
  · intro hN
    have h0 : N.toNat = 0 := by omega
    simp [gradient_descent, h0, gdAux]
  · intro hN
    have h0 : N.toNat ≠ 0 := by omega
    cases hk : N.toNat with
    | zero => exact absurd hk h0
    | succ k =>
      have hgrad : compute_gradient [] y m b = none := by
        cases y <;> simp [compute_gradient, residSums]
      simp [gradient_descent, hk, gdAux, gdIter, hgrad]

/-- Witness for the amended C6. -/
theorem precondition_behaviour_witness :
    compute_cost [] [] 0 0 = none ∧
    compute_gradient [] [] 0 0 = none ∧
    gradient_descent [1] [2] 3 4 5 0 compute_cost compute_gradient =
      some ⟨3, 4, [], []⟩ ∧
    gradient_descent [] [] 0 0 1 1 compute_cost compute_gradient = none :=
  ⟨(precondition_behaviour 0 0 0 0 [] []).1,
   (precondition_behaviour 0 0 0 0 [] []).2.1,
   (precondition_behaviour 3 4 5 0 [1] [2]).2.2.1 (by norm_num),
   (precondition_behaviour 0 0 1 1 [] []).2.2.2 (by norm_num)⟩

/-- C7: at the least-squares optimum `(m, b) = (200, 100)` of the dataset
`x = [1, 2]`, `y = [300, 500]`, every residual is exactly zero and
`compute_gradient` returns exactly `(0, 0)`. -/
theorem compute_gradient_at_optimum :
    compute_gradient [1, 2] [300, 500] 200 100 = some (0, 0) := by
  norm_num [compute_gradient, residSums]
